import Mathlib

/-!
Verification development for the CaptionCheck frame-accurate playback and
scrubbing engine (`captioncheck/gui/main_window.py` and collaborators).

The Python code is shallowly embedded: the GUI main-window state becomes an
explicit record `CC`, every timer callback / event handler becomes a pure
state-transition function, wall-clock elapsed time becomes an explicit `delta`
argument (the code reads `time.monotonic()` deltas), and the filesystem that
the generation job and cache validator touch becomes explicit `Option DirC`
fields.  Python floats are modelled as rationals, Python `int()` truncation as
`ratTrunc`.
-/

namespace CaptionCheck

/-- Python `int(q)` for a float/rational: truncation toward zero
(`Int.tdiv` of the reduced numerator by the denominator truncates toward 0). -/
def ratTrunc (q : ℚ) : ℤ := q.num.tdiv (q.den : ℤ)

/-- Modelled from the spec: the Frame/Time Mapper component (`frame_to_time_ms`)
is not part of the source variant under review (it belongs to the other
main-window variants the spec merges); per the spec it computes
`round(frame / fps * 1000)` and fails closed to 0 when `fps <= 0`. -/
def frame_to_time_ms (frame : ℕ) (fps : ℚ) : ℤ :=
  if fps ≤ 0 then 0 else round ((frame : ℚ) / fps * 1000)

/-- Modelled from the spec: the small epsilon tolerance `time_ms_to_frame`
adds before flooring, "to counter floating-point truncation at exact frame
boundaries".  A representative small tolerance (any value below `1/1000`
gives the same results on the inputs discussed here). -/
def TIME_EPS : ℚ := 1 / 1000000

/-- Modelled from the spec: `time_ms_to_frame` computes
`floor(ms * fps / 1000)` with a small epsilon tolerance, failing closed to 0
when `fps <= 0`. -/
def time_ms_to_frame (ms : ℤ) (fps : ℚ) : ℤ :=
  if fps ≤ 0 then 0 else ⌊(ms : ℚ) * fps / 1000 + TIME_EPS⌋

/-- Contents of the on-disk `meta.json` cache fingerprint, as the code reads it
back with `int(meta.get(k) or 0)` / `float(meta.get("fps") or 0.0)` defaults:
an absent field is indistinguishable from 0, so fields are stored totalized. -/
structure CacheMeta where
  mtime : ℤ
  size : ℤ
  fps : ℚ
  total : ℤ
deriving DecidableEq

/-- An on-disk frames directory: which numbered `{n:06d}.jpg` files are present
(as their indices), and the `meta.json` file (`none` = no meta file,
`some none` = present but unparsable, `some (some m)` = parses to `m`). -/
structure DirC where
  frames : List ℕ
  metaFile : Option (Option CacheMeta)
deriving DecidableEq

/-- The `info` fields of a caption record as `_load_item` reads them
(`float(info.get("fps") or 10.0)`, `int(info.get("total_frames") or 0)`;
`none` models an absent field).  `total_frames` is taken as a natural number
(caption records carry counts). -/
structure RecordInfo where
  fps : Option ℚ
  total : Option ℕ
  reviewed : Bool

/-- In-memory frame-image cache capacity (`MainWindow._PIXMAP_CACHE_SIZE`). -/
def PIXMAP_CACHE_SIZE : ℕ := 128

/-- The `MainWindow` session state.  Qt timers become booleans (a timer tick
function is only invoked while its flag is on), `time.monotonic()` deltas
become explicit arguments, paths held in `_frames_dir`/`_gen_tmp_dir`/
`_gen_final_dir` become booleans for "is set", and the item's on-disk frame
directories and video stat become explicit fields.  The pixmap cache keeps
only the `OrderedDict` key order (least-recently-used first); pixmap values
are irrelevant to the control flow (only non-null pixmaps are ever stored). -/
structure CC where
  currentItem : Option ℕ
  fps : ℚ
  total_frames : ℕ
  current_frame : ℕ
  sliderDragging : Bool
  playing : Bool
  playTimerOn : Bool
  playAccum : ℚ
  stepHoldLeft : Bool
  stepHoldRight : Bool
  stepTimerOn : Bool
  stepAccum : ℚ
  framesDir : Bool
  pixmapCache : List ℕ
  ffmpegAvailable : Bool
  genActive : Bool
  genTmpSet : Bool
  genFinalSet : Bool
  genExpectedTotal : Option ℕ
  genExpectedFps : Option ℚ
  fsTmp : Option DirC
  fsFinal : Option DirC
  videoStat : Option (ℤ × ℤ)
  controlsEnabled : Bool
  sliderRangeMax : ℕ
  reviewed : Bool

/-- `_frames_ready`: frames dir set and `total_frames > 0`. -/
def framesReady (s : CC) : Bool :=
  s.framesDir && decide (0 < s.total_frames)

/-- `_step_direction`: +1 iff only the right (forward) key is held, -1 iff
only the left key is held, 0 otherwise. -/
def stepDirection (s : CC) : ℤ :=
  if s.stepHoldRight ∧ ¬ s.stepHoldLeft then 1
  else if s.stepHoldLeft ∧ ¬ s.stepHoldRight then -1
  else 0

/-- The `while len(cache) > _PIXMAP_CACHE_SIZE: cache.popitem(last=False)`
eviction loop on the key order (least-recently-used first). -/
def evictOverflow (c : List ℕ) : List ℕ :=
  if c.length ≤ PIXMAP_CACHE_SIZE then c
  else
    match c with
    | [] => []
    | _ :: t => evictOverflow t

/-- Whether `{f:06d}.jpg` exists (and decodes) in the current frames
directory; the code's two recoverable failure cases (file missing, decoder
returning a null pixmap) both skip the cache insert, so they are modelled as
one flag per lookup. -/
def fsHasFrame (s : CC) (f : ℕ) : Bool :=
  match s.fsFinal with
  | some dc => decide (f ∈ dc.frames)
  | none => false

/-- `_display_frame`, restricted to its effect on the pixmap-cache key order:
hit (frame in cache) promotes to most-recently-used via `move_to_end`; a
missing/unloadable file leaves the cache unchanged; a successful load inserts
at the most-recently-used end and evicts from the least-recently-used end
while over capacity. -/
def displayFrameCache (cache : List ℕ) (frame : ℕ) (fileOk : Bool) : List ℕ :=
  if frame ∈ cache then cache.erase frame ++ [frame]
  else if ¬ fileOk then cache
  else evictOverflow (cache ++ [frame])

/-- `_set_playing`: no-op when the flag already matches; starting requires
frames ready, stops the step timer and resets the fractional accumulator
(the clock reference `_play_last_time` is implicit: elapsed time is an
argument of `playTick`); stopping is unconditional. -/
def setPlaying (s : CC) (p : Bool) : CC :=
  if p = s.playing then s
  else if p then
    if ¬ framesReady s then s
    else { s with stepTimerOn := false, playing := true, playAccum := 0,
                  playTimerOn := true }
  else { s with playTimerOn := false, playing := false }

/-- The clamp `_set_current_frame` applies: `max(0, int(frame))` (via
`Int.toNat`) then `min(frame, total_frames - 1)` when `total_frames` is
nonzero. -/
def clampFrame (s : CC) (frame : ℤ) : ℕ :=
  if s.total_frames ≠ 0 then min frame.toNat (s.total_frames - 1) else frame.toNat

/-- `_set_current_frame`: no-op when frames are not ready or the clamped frame
is unchanged; otherwise update the frame and render it through
`_display_frame` (which is where the pixmap cache is touched). -/
def setCurrentFrame (s : CC) (frame : ℤ) : CC :=
  if ¬ framesReady s then s
  else if clampFrame s frame = s.current_frame then s
  else
    { s with current_frame := clampFrame s frame,
             pixmapCache :=
               if s.framesDir then
                 displayFrameCache s.pixmapCache (clampFrame s frame)
                   (fsHasFrame s (clampFrame s frame))
               else s.pixmapCache }

/-- `_on_play_tick`: guard on playing/ready/fps; accumulate
`delta * fps * rate` fractional frames; advance by the integer part, keeping
the remainder; clamp at `total_frames - 1` and stop playback when the target
reaches or passes the end. -/
def playTick (s : CC) (delta rate : ℚ) : CC :=
  if ¬ s.playing ∨ ¬ framesReady s ∨ s.fps ≤ 0 then s
  else if ratTrunc (s.playAccum + delta * s.fps * rate) ≤ 0 then
    { s with playAccum := s.playAccum + delta * s.fps * rate }
  else if s.total_frames ≠ 0 ∧
      (s.total_frames : ℤ) ≤ (s.current_frame : ℤ) + ratTrunc (s.playAccum + delta * s.fps * rate) then
    setPlaying
      (setCurrentFrame
        { s with playAccum := s.playAccum + delta * s.fps * rate
                   - ratTrunc (s.playAccum + delta * s.fps * rate) }
        ((s.total_frames : ℤ) - 1))
      false
  else
    setCurrentFrame
      { s with playAccum := s.playAccum + delta * s.fps * rate
                 - ratTrunc (s.playAccum + delta * s.fps * rate) }
      ((s.current_frame : ℤ) + ratTrunc (s.playAccum + delta * s.fps * rate))

/-- `_maybe_stop_step_hold`: stop the step timer only when the effective
direction is 0. -/
def maybeStopStepHold (s : CC) : CC :=
  if stepDirection s = 0 then { s with stepTimerOn := false } else s

/-- The clamped target `_nudge_frame` computes:
`max(0, min(current + delta, total_frames - 1))`. -/
def nudgeTarget (s : CC) (delta : ℤ) : ℤ :=
  max 0 (min ((s.current_frame : ℤ) + delta) ((s.total_frames : ℤ) - 1))

/-- `_nudge_frame`: clamp the target into `[0, total_frames - 1]`, set it, and
on hitting either boundary call `_maybe_stop_step_hold` (`setCurrentFrame`
does not change `total_frames`, so the boundary test reads the same total the
clamp used). -/
def nudgeFrame (s : CC) (delta : ℤ) : CC :=
  if ¬ framesReady s ∨ s.total_frames ≤ 0 then s
  else if nudgeTarget s delta = 0 ∨ nudgeTarget s delta = (s.total_frames : ℤ) - 1 then
    maybeStopStepHold (setCurrentFrame s (nudgeTarget s delta))
  else setCurrentFrame s (nudgeTarget s delta)

/-- `_start_step_hold`: guard on ready/fps/slider; no-op when the effective
direction is 0; otherwise stop playback, reset the step accumulator, start the
step timer and immediately nudge one frame in that direction. -/
def startStepHold (s : CC) : CC :=
  if ¬ framesReady s ∨ s.fps ≤ 0 ∨ s.sliderDragging then s
  else if stepDirection s = 0 then s
  else
    nudgeFrame { setPlaying s false with stepAccum := 0, stepTimerOn := true }
      (stepDirection s)

/-- `_on_step_hold_tick`: stop the timer when no longer ready (or mid-drag) or
when the effective direction is 0; otherwise accumulate `delta * fps * 1.0`
fractional frames (fixed step rate 1, independent of the speed selector) and
nudge by `direction * advance`, keeping the fractional remainder. -/
def stepHoldTick (s : CC) (delta : ℚ) : CC :=
  if ¬ framesReady s ∨ s.fps ≤ 0 ∨ s.sliderDragging then { s with stepTimerOn := false }
  else if stepDirection s = 0 then { s with stepTimerOn := false }
  else if ratTrunc (s.stepAccum + delta * s.fps * 1) ≤ 0 then
    { s with stepAccum := s.stepAccum + delta * s.fps * 1 }
  else
    nudgeFrame
      { s with stepAccum := s.stepAccum + delta * s.fps * 1
                 - ratTrunc (s.stepAccum + delta * s.fps * 1) }
      (stepDirection s * ratTrunc (s.stepAccum + delta * s.fps * 1))

/-- Left-arrow key press edge (autorepeat edges are filtered out by the
caller): set the hold flag, then `_start_step_hold`. -/
def pressLeft (s : CC) : CC := startStepHold { s with stepHoldLeft := true }

/-- Right-arrow key press edge: set the hold flag, then `_start_step_hold`. -/
def pressRight (s : CC) : CC := startStepHold { s with stepHoldRight := true }

/-- Left-arrow key release edge: clear the hold flag, then
`_maybe_stop_step_hold`. -/
def releaseLeft (s : CC) : CC := maybeStopStepHold { s with stepHoldLeft := false }

/-- Right-arrow key release edge: clear the hold flag, then
`_maybe_stop_step_hold`. -/
def releaseRight (s : CC) : CC := maybeStopStepHold { s with stepHoldRight := false }

/-- `_toggle_play`: guarded by `_frames_ready`. -/
def togglePlay (s : CC) : CC :=
  if ¬ framesReady s then s else setPlaying s (! s.playing)

/-- `_frames_cache_valid(frames_dir, item)`: fingerprint file must exist and
parse; the video must stat; mtime and size must match exactly; the stored fps
and total must be positive; the stored fps must match the session fps within
`1e-3` (when the session fps is nonzero) and the stored total must equal the
session total (when nonzero); and the first (`000000.jpg`) and last
(`{total-1:06d}.jpg`, per the stored total) frame files must exist.
`sfps`/`stotal` are `self._fps`/`self._total_frames`. -/
def framesCacheValid (d : Option DirC) (stat : Option (ℤ × ℤ)) (sfps : ℚ)
    (stotal : ℕ) : Bool :=
  match d with
  | none => false
  | some dc =>
    match dc.metaFile with
    | none => false
    | some none => false
    | some (some m) =>
      match stat with
      | none => false
      | some (mt, sz) =>
        if m.mtime ≠ mt then false
        else if m.size ≠ sz then false
        else if m.fps ≤ 0 ∨ m.total ≤ 0 then false
        else if sfps ≠ 0 ∧ |m.fps - sfps| > 1 / 1000 then false
        else if stotal ≠ 0 ∧ m.total ≠ (stotal : ℤ) then false
        else if ¬ (0 ∈ dc.frames) ∨ ¬ ((m.total - 1).toNat ∈ dc.frames) then false
        else true

/-- The cache-validity condition exactly as the specification claims it
(refinement spec side, for comparison with `framesCacheValid`): fingerprint
exists and parses, mtime/size equal the stat values, fps within `1e-3` of the
record fps, total equal to the record total, and the first and last expected
numbered frame files exist. -/
def specCacheValidClaim (d : Option DirC) (stat : Option (ℤ × ℤ)) (sfps : ℚ)
    (stotal : ℕ) : Bool :=
  match d, stat with
  | some dc, some (mt, sz) =>
    match dc.metaFile with
    | some (some m) =>
      decide (m.mtime = mt) && decide (m.size = sz)
        && decide (|m.fps - sfps| ≤ 1 / 1000) && decide (m.total = (stotal : ℤ))
        && decide (0 ∈ dc.frames) && decide (stotal - 1 ∈ dc.frames)
    | _ => false
  | _, _ => false

/-- The amended cache-validity condition: as the claim words it, plus the
requirement (enforced by the code) that the stored fingerprint fps is
positive — for record fps at most `1e-3` the two differ. -/
def specCacheValidAmended (d : Option DirC) (stat : Option (ℤ × ℤ)) (sfps : ℚ)
    (stotal : ℕ) : Bool :=
  match d, stat with
  | some dc, some (mt, sz) =>
    match dc.metaFile with
    | some (some m) =>
      decide (0 < m.fps) && decide (m.mtime = mt) && decide (m.size = sz)
        && decide (|m.fps - sfps| ≤ 1 / 1000) && decide (m.total = (stotal : ℤ))
        && decide (0 ∈ dc.frames) && decide (stotal - 1 ∈ dc.frames)
    | _ => false
  | _, _ => false

/-- `_update_generation_progress`: the surfaced progress value for one
reported `frame=` count — clipped to the expected total when it is known. -/
def updateGenerationProgress (expected : Option ℕ) (frame : ℕ) : ℕ :=
  match expected with
  | some t => min frame t
  | none => frame

/-- The sequence of progress values surfaced for a sequence of `frame=`
progress counts reported (in order) on the decode process's stdout. -/
def surfacedProgress (expected : Option ℕ) (reports : List ℕ) : List ℕ :=
  reports.map (updateGenerationProgress expected)

/-- `_cancel_frame_generation`: no-op when no process is active; otherwise
kill the process, clear all generation bookkeeping and remove the temporary
directory if it exists. -/
def cancelFrameGeneration (s : CC) : CC :=
  if ¬ s.genActive then s
  else
    { s with genActive := false, genTmpSet := false, genFinalSet := false,
             genExpectedTotal := none, genExpectedFps := none,
             fsTmp := none }

/-- Whether `{n:06d}.jpg` exists in the temporary generation directory. -/
def tmpHasFrame : Option DirC → ℕ → Bool
  | none, _ => false
  | some dc, n => decide (n ∈ dc.frames)

/-- `len(list(tmp_dir.glob("*.jpg")))`. -/
def tmpFrameCount : Option DirC → ℕ
  | none => 0
  | some dc => dc.frames.length

/-- The success tail of `_on_ffmpeg_finished`: write `meta.json` into the
temporary directory (fps falls back to the session fps when the recorded
expected fps is absent or zero, mtime/size default to 0 when the video could
not be stat'ed), atomically promote the temporary directory over any existing
final directory, then point the session at it: `_frames_dir` set,
`_total_frames` overwritten with the produced count, slider re-ranged,
controls enabled and frame 0 selected. -/
def finalizeGen (s : CC) (tf : ℕ) (expFps : Option ℚ) : CC :=
  let m : CacheMeta :=
    { mtime := (s.videoStat.map Prod.fst).getD 0,
      size := (s.videoStat.map Prod.snd).getD 0,
      fps := match expFps with
             | some q => if q = 0 then s.fps else q
             | none => s.fps,
      total := (tf : ℤ) }
  let tmp' := s.fsTmp.map fun dc => { dc with metaFile := some (some m) }
  { s with fsTmp := none,
           fsFinal := tmp',
           framesDir := true,
           total_frames := tf,
           sliderRangeMax := if 0 < tf then tf - 1 else s.sliderRangeMax,
           controlsEnabled := true,
           current_frame := 0 }

/-- The field resets at the top of `_on_ffmpeg_finished` (the handler captures
`tmp_dir`/`final_dir`/expected values in locals first, then clears the
bookkeeping; the later branches below read the captured pre-clear values). -/
def clearGenBookkeeping (s : CC) : CC :=
  { s with genActive := false, genTmpSet := false, genFinalSet := false,
           genExpectedTotal := none, genExpectedFps := none }

/-- `_on_ffmpeg_finished`: ignore stale senders; clear the generation
bookkeeping; on non-zero exit or abnormal termination discard the temporary
directory and fail; on clean exit verify completeness (last expected file when
the total was known, else a nonzero produced-file count), then finalize. -/
def ffmpegFinished (s : CC) (exit_code : ℤ) (normal_exit : Bool) : CC :=
  if ¬ s.genActive then s
  else if normal_exit = false ∨ exit_code ≠ 0 then
    { clearGenBookkeeping s with fsTmp := none }
  else if ¬ s.genTmpSet ∨ ¬ s.genFinalSet then clearGenBookkeeping s
  else
    match s.genExpectedTotal with
    | some et =>
      if ¬ tmpHasFrame s.fsTmp (et - 1) then { clearGenBookkeeping s with fsTmp := none }
      else finalizeGen (clearGenBookkeeping s) et s.genExpectedFps
    | none =>
      if tmpFrameCount s.fsTmp = 0 then { clearGenBookkeeping s with fsTmp := none }
      else finalizeGen (clearGenBookkeeping s) (tmpFrameCount s.fsTmp) s.genExpectedFps

/-- `_start_frame_generation`: cancel any running job, stop both clocks,
recreate the temporary directory fresh, launch the decode process and record
the generation bookkeeping (`expected_total`/`expected_fps` only when
positive); the in-memory cache is cleared and playback disabled while the job
runs. -/
def startFrameGeneration (s : CC) : CC :=
  let s1 := cancelFrameGeneration s
  let s2 := setPlaying s1 false
  let s3 : CC := { s2 with stepTimerOn := false }
  { s3 with fsTmp := some { frames := [], metaFile := none },
            genActive := true, genTmpSet := true, genFinalSet := true,
            genExpectedTotal := if 0 < s3.total_frames then some s3.total_frames else none,
            genExpectedFps := if 0 < s3.fps then some s3.fps else none,
            pixmapCache := [], framesDir := false, controlsEnabled := false }

/-- `_ensure_frames_for_current_item`: nothing without a current item; a
missing ffmpeg executable disables the controls; a stale temporary directory
is removed; a valid cache is adopted directly (controls enabled, frame 0
rendered); otherwise any stale final directory is removed and generation
starts. -/
def ensureFrames (s : CC) : CC :=
  if s.currentItem = none then s
  else if ¬ s.ffmpegAvailable then { s with controlsEnabled := false }
  else
    let s1 : CC := { s with fsTmp := none }
    if framesCacheValid s1.fsFinal s1.videoStat s1.fps s1.total_frames then
      let s2 : CC := { s1 with framesDir := true, controlsEnabled := true }
      { s2 with pixmapCache := displayFrameCache s2.pixmapCache 0 (fsHasFrame s2 0) }
    else
      startFrameGeneration { s1 with fsFinal := none }

/-- `_load_item`: a reselect of the current item returns immediately;
otherwise stop playback and stepping, cancel any in-flight generation, reset
the per-item state, read fps/total/reviewed from the record (with the
`or`-defaults of the source), re-range the slider, and ensure frames. -/
def loadItem (s : CC) (d : ℕ) (rec : RecordInfo) : CC :=
  if s.currentItem = some d then s
  else
    let s1 := setPlaying s false
    let s2 : CC := { s1 with stepTimerOn := false, stepHoldLeft := false,
                             stepHoldRight := false }
    let s3 := cancelFrameGeneration s2
    let s4 : CC := { s3 with currentItem := some d, pixmapCache := [],
                             framesDir := false, current_frame := 0 }
    let rfps : ℚ := match rec.fps with
                    | some q => if q = 0 then 10 else q
                    | none => 10
    let rtotal : ℕ := rec.total.getD 0
    let s5 : CC := { s4 with fps := rfps, total_frames := rtotal,
                             reviewed := rec.reviewed,
                             sliderRangeMax := if 0 < rtotal then rtotal - 1 else 0 }
    ensureFrames s5

/-- A concrete session state used for witnesses and counterexamples: an item
with 5 frames at 10 fps whose on-disk frame cache is present and valid, idle
(not playing, no keys held, no generation running). -/
def baseCC : CC :=
  { currentItem := some 0
    fps := 10
    total_frames := 5
    current_frame := 0
    sliderDragging := false
    playing := false
    playTimerOn := false
    playAccum := 0
    stepHoldLeft := false
    stepHoldRight := false
    stepTimerOn := false
    stepAccum := 0
    framesDir := true
    pixmapCache := []
    ffmpegAvailable := true
    genActive := false
    genTmpSet := false
    genFinalSet := false
    genExpectedTotal := none
    genExpectedFps := none
    fsTmp := none
    fsFinal := some { frames := [0, 1, 2, 3, 4],
                      metaFile := some (some { mtime := 5, size := 7, fps := 10, total := 5 }) }
    videoStat := some (5, 7)
    controlsEnabled := true
    sliderRangeMax := 4
    reviewed := false }

/-- `baseCC`, playing at frame 3 with five whole frames already accumulated. -/
def playEndState : CC :=
  { baseCC with playing := true, playTimerOn := true, current_frame := 3,
                playAccum := 5 }

/-- `baseCC` mid step-hold: right key held, step timer running, frame 3 of 5,
one whole frame already accumulated. -/
def stepBoundaryState : CC :=
  { baseCC with current_frame := 3, stepHoldRight := true, stepTimerOn := true,
                stepAccum := 1 }

/-- `baseCC` mid step-hold at frame 2 of 5: right key held, step timer
running. -/
def bothHeldStart : CC :=
  { baseCC with current_frame := 2, stepHoldRight := true, stepTimerOn := true }

/-- `baseCC` at frame 2 of 5 with both direction keys held and the step timer
running. -/
def bothHeldState : CC :=
  { baseCC with current_frame := 2, stepHoldLeft := true, stepHoldRight := true,
                stepTimerOn := true }

/-- `baseCC` with a generation job running (expected total 5, expected fps 10)
whose temporary directory holds two frames so far. -/
def genRunningState : CC :=
  { baseCC with genActive := true, genTmpSet := true, genFinalSet := true,
                genExpectedTotal := some 5, genExpectedFps := some 10,
                fsTmp := some { frames := [0, 1], metaFile := none },
                framesDir := false, controlsEnabled := false }

/-- `baseCC` for an item whose record carried `total_frames = 0`: the running
generation job recorded no expected total, and its temporary directory ended
up holding three frames. -/
def genNoTotalState : CC :=
  { baseCC with genActive := true, genTmpSet := true, genFinalSet := true,
                genExpectedTotal := none, genExpectedFps := some 10,
                fsTmp := some { frames := [0, 1, 2], metaFile := none },
                fsFinal := none, framesDir := false, controlsEnabled := false,
                total_frames := 0, sliderRangeMax := 0 }

end CaptionCheck

namespace CaptionCheck

lemma ratTrunc_natCast (n : ℕ) : ratTrunc (n : ℚ) = n := by
  simp [ratTrunc, Int.tdiv_one]

lemma framesReady_total_pos {s : CC} (h : framesReady s = true) :
    0 < s.total_frames := by
  simp only [framesReady, Bool.and_eq_true, decide_eq_true_eq] at h
  exact h.2

lemma setCurrentFrame_total (s : CC) (f : ℤ) :
    (setCurrentFrame s f).total_frames = s.total_frames := by
  rw [setCurrentFrame]
  split_ifs <;> rfl

lemma setCurrentFrame_fps (s : CC) (f : ℤ) :
    (setCurrentFrame s f).fps = s.fps := by
  rw [setCurrentFrame]
  split_ifs <;> rfl

lemma setCurrentFrame_playing (s : CC) (f : ℤ) :
    (setCurrentFrame s f).playing = s.playing := by
  rw [setCurrentFrame]
  split_ifs <;> rfl

lemma clampFrame_lt {s : CC} (f : ℤ) (htot : 0 < s.total_frames) :
    clampFrame s f < s.total_frames := by
  rw [clampFrame, if_pos (by omega)]
  omega

lemma setCurrentFrame_frame_lt {s : CC} (f : ℤ) (hr : framesReady s = true)
    (hc : s.current_frame < s.total_frames) :
    (setCurrentFrame s f).current_frame < s.total_frames := by
  have htot := framesReady_total_pos hr
  rw [setCurrentFrame]
  split_ifs <;> first
    | exact hc
    | exact clampFrame_lt f htot

lemma setCurrentFrame_last {s : CC} (hr : framesReady s = true) :
    (setCurrentFrame s ((s.total_frames : ℤ) - 1)).current_frame
      = s.total_frames - 1 := by
  have htot := framesReady_total_pos hr
  have hclamp : clampFrame s ((s.total_frames : ℤ) - 1) = s.total_frames - 1 := by
    rw [clampFrame, if_pos (by omega)]
    omega
  rw [setCurrentFrame]
  split_ifs with h1 h2
  · rw [← h1, hclamp]
  · exact hclamp
  · exact hclamp

lemma setPlaying_false_playing (s : CC) : (setPlaying s false).playing = false := by
  rw [setPlaying]
  by_cases h : false = s.playing
  · rw [if_pos h]
    exact h.symm
  · rw [if_neg h, if_neg (by simp)]

lemma setPlaying_false_frame (s : CC) :
    (setPlaying s false).current_frame = s.current_frame := by
  rw [setPlaying]
  split_ifs <;> rfl

lemma setPlaying_total (s : CC) (p : Bool) :
    (setPlaying s p).total_frames = s.total_frames := by
  rw [setPlaying]
  split_ifs <;> rfl

lemma setPlaying_fps (s : CC) (p : Bool) : (setPlaying s p).fps = s.fps := by
  rw [setPlaying]
  split_ifs <;> rfl

/-- C1 counterexample: at `fps = 3 > 0` and frame `f = 1` the round trip
does not return the original frame: `frame_to_time_ms 1 3 = round(1000/3) =
333` and `time_ms_to_frame 333 3 = floor(0.999 + eps) = 0`. -/
theorem c1_roundtrip_counterexample :
    (0 : ℚ) < 3 ∧ time_ms_to_frame (frame_to_time_ms 1 3) 3 ≠ 1 := by
  constructor
  · norm_num
  · have h1 : frame_to_time_ms 1 3 = 333 := by
      rw [frame_to_time_ms, if_neg (by norm_num), round_eq, Int.floor_eq_iff]
      constructor <;> push_cast <;> norm_num
    rw [h1, time_ms_to_frame, if_neg (by norm_num), TIME_EPS]
    intro hcontra
    rw [Int.floor_eq_iff] at hcontra
    rcases hcontra with ⟨hlo, _⟩
    push_cast at hlo
    norm_num at hlo

/-- C1 (amended): the round trip `time_ms_to_frame (frame_to_time_ms f fps) fps = f`
holds for every frame `f` whenever the frame duration in milliseconds is a
positive integer, i.e. `fps = 1000 / m` for a positive integer `m` (this
covers the 10 fps default: `m = 100`). -/
theorem c1_roundtrip_amended (m f : ℕ) (hm : 0 < m) :
    time_ms_to_frame (frame_to_time_ms f ((1000 : ℚ) / m)) ((1000 : ℚ) / m) = f := by
  have hm0 : (0 : ℚ) < (m : ℚ) := by exact_mod_cast hm
  have hfps : (0 : ℚ) < (1000 : ℚ) / m := by positivity
  have hfps' : ¬ ((1000 : ℚ) / m ≤ 0) := not_le.mpr hfps
  have h1 : frame_to_time_ms f ((1000 : ℚ) / m) = ((f * m : ℕ) : ℤ) := by
    rw [frame_to_time_ms, if_neg hfps']
    have : (f : ℚ) / ((1000 : ℚ) / m) * 1000 = ((f * m : ℕ) : ℚ) := by
      push_cast
      field_simp
    rw [this, round_natCast]
  rw [h1, time_ms_to_frame, if_neg hfps']
  have h2 : (((f * m : ℕ) : ℤ) : ℚ) * ((1000 : ℚ) / m) / 1000 + TIME_EPS
      = (f : ℚ) + 1 / 1000000 := by
    rw [TIME_EPS]
    push_cast
    field_simp
    ring
  rw [h2, Int.floor_eq_iff]
  constructor
  · push_cast; linarith
  · push_cast; linarith

/-- C1 witness: the amended round trip at `fps = 10` (frame period 100 ms)
and frame 7. -/
theorem c1_roundtrip_witness :
    0 < 100
      ∧ time_ms_to_frame (frame_to_time_ms 7 ((1000 : ℚ) / 100)) ((1000 : ℚ) / 100) = 7 :=
  ⟨by norm_num, c1_roundtrip_amended 100 7 (by norm_num)⟩

/-- C3 counterexample to the claim as stated: with record fps `1/2000 > 0`
(below the 1e-3 tolerance) and total 5, a fingerprint storing fps `0`
satisfies every condition the claim lists (it parses, mtime/size match, the
stored fps is within 1e-3 of the record fps, totals match, boundary frames
exist), yet `_frames_cache_valid` returns false because it also requires the
stored fps to be positive. -/
theorem c3_cache_validity_counterexample :
    (0 : ℚ) < 1 / 2000 ∧ 0 < 5
      ∧ specCacheValidClaim
          (some { frames := [0, 1, 2, 3, 4],
                  metaFile := some (some { mtime := 5, size := 7, fps := 0, total := 5 }) })
          (some (5, 7)) (1 / 2000) 5 = true
      ∧ framesCacheValid
          (some { frames := [0, 1, 2, 3, 4],
                  metaFile := some (some { mtime := 5, size := 7, fps := 0, total := 5 }) })
          (some (5, 7)) (1 / 2000) 5 = false := by
  refine ⟨by norm_num, by norm_num, ?_, ?_⟩
  · simp only [specCacheValidClaim]
    norm_num [abs_le]
  · simp only [framesCacheValid]
    norm_num

/-- C3 (amended): for every cache directory, video stat, record fps > 0 and
record total_frames > 0, `_frames_cache_valid` returns true exactly when the
claim's conditions hold together with positivity of the stored fingerprint
fps: fingerprint exists and parses, its mtime and size equal the stat values,
its fps is positive and within 1e-3 of the record fps, its total equals the
record total, and the first and last expected numbered frame files exist;
hence any parse failure, missing file, or change to one of the four
fingerprint fields (fps beyond the 1e-3 tolerance) makes validation false. -/
theorem c3_cache_validity (d : Option DirC) (stat : Option (ℤ × ℤ)) (sfps : ℚ)
    (stotal : ℕ) (hf : 0 < sfps) (ht : 0 < stotal) :
    framesCacheValid d stat sfps stotal = specCacheValidAmended d stat sfps stotal := by
  rcases d with _ | ⟨frames, mf⟩
  · rfl
  rcases stat with _ | ⟨mt, sz⟩
  · rcases mf with _ | _ | m <;> rfl
  rcases mf with _ | _ | m
  · rfl
  · rfl
  simp only [framesCacheValid, specCacheValidAmended]
  split_ifs with h1 h2 h3 h4 h5 h6
  · simp [h1]
  · simp [h2]
  · rcases h3 with h3 | h3
    · have : ¬ (0 < m.fps) := by linarith
      simp [this]
    · have : m.total ≠ (stotal : ℤ) := by omega
      simp [this]
  · have h4' : ¬ (|m.fps - sfps| ≤ (1000 : ℚ)⁻¹) := by
      rw [← one_div]
      exact not_le.mpr h4.2
    simp [h4']
  · simp [h5.2]
  · push_neg at h3 h5
    have htt : m.total = (stotal : ℤ) := by
      by_cases hz : stotal = 0
      · omega
      · exact h5 hz
    rcases h6 with h6 | h6
    · simp [h6]
    · have : ¬ ((stotal : ℕ) - 1 ∈ frames) := by
        have : (m.total - 1).toNat = stotal - 1 := by omega
        rwa [this] at h6
      simp [this]
  · push_neg at h1 h2 h3 h4 h5 h6
    have hfps : 0 < m.fps := h3.1
    have htt : m.total = (stotal : ℤ) := by
      by_cases hz : stotal = 0
      · omega
      · exact h5 hz
    have htol : |m.fps - sfps| ≤ (1000 : ℚ)⁻¹ := by
      rw [← one_div]
      exact h4 (by linarith)
    have hlast : (stotal : ℕ) - 1 ∈ frames := by
      have he : (m.total - 1).toNat = stotal - 1 := by omega
      rw [← he]
      exact h6.2
    simp [h1, h2, hfps, htol, htt, h6.1, hlast]

/-- C3 witness: the amended equivalence evaluated at the concrete valid
cache directory of `baseCC` (record fps 10, total 5). -/
theorem c3_cache_validity_witness :
    (0 : ℚ) < 10 ∧ 0 < 5
      ∧ framesCacheValid baseCC.fsFinal baseCC.videoStat 10 5
          = specCacheValidAmended baseCC.fsFinal baseCC.videoStat 10 5 :=
  ⟨by norm_num, by norm_num,
    c3_cache_validity baseCC.fsFinal baseCC.videoStat 10 5 (by norm_num) (by norm_num)⟩

/-- C2: on every `_on_play_tick` while playing with frames ready and a
positive fps, the current frame stays strictly below `total_frames`
(never advances past `total_frames - 1`, hence never loops to 0), the total
is untouched, and whenever the accumulated whole-frame advance would reach or
exceed `total_frames`, the tick clamps the frame to `total_frames - 1` and
transitions playback to Stopped. -/
theorem c2_play_tick_clamps_and_stops (s : CC) (delta rate : ℚ)
    (hp : s.playing = true) (hr : framesReady s = true) (hf : 0 < s.fps)
    (hc : s.current_frame < s.total_frames) :
    (playTick s delta rate).current_frame < s.total_frames
    ∧ (playTick s delta rate).total_frames = s.total_frames
    ∧ (0 < ratTrunc (s.playAccum + delta * s.fps * rate) →
       (s.total_frames : ℤ) ≤ (s.current_frame : ℤ)
           + ratTrunc (s.playAccum + delta * s.fps * rate) →
       (playTick s delta rate).current_frame = s.total_frames - 1
         ∧ (playTick s delta rate).playing = false) := by
  have htot := framesReady_total_pos hr
  have hguard : ¬ (¬ s.playing ∨ ¬ framesReady s ∨ s.fps ≤ 0) := by
    push_neg
    refine ⟨by simp [hp], by simp [hr], hf⟩
  rw [playTick, if_neg hguard]
  by_cases hadv : ratTrunc (s.playAccum + delta * s.fps * rate) ≤ 0
  · rw [if_pos hadv]
    exact ⟨hc, rfl, fun hpos _ => absurd hpos (by omega)⟩
  · rw [if_neg hadv]
    by_cases hclamp : s.total_frames ≠ 0 ∧
        (s.total_frames : ℤ) ≤ (s.current_frame : ℤ)
          + ratTrunc (s.playAccum + delta * s.fps * rate)
    · rw [if_pos hclamp]
      set s1 : CC :=
        { s with playAccum := s.playAccum + delta * s.fps * rate
                   - ratTrunc (s.playAccum + delta * s.fps * rate) } with hs1
      have hr1 : framesReady s1 = true := by
        simpa [framesReady, hs1] using hr
      have hlast :
          (setCurrentFrame s1 ((s1.total_frames : ℤ) - 1)).current_frame
            = s1.total_frames - 1 := setCurrentFrame_last hr1
      constructor
      · rw [setPlaying_false_frame, hlast]
        show s.total_frames - 1 < s.total_frames
        omega
      refine ⟨?_, fun _ _ => ?_⟩
      · rw [setPlaying_total, setCurrentFrame_total]
      · exact ⟨by rw [setPlaying_false_frame, hlast], setPlaying_false_playing _⟩
    · rw [if_neg hclamp]
      have hlt :
          (setCurrentFrame
            { s with playAccum := s.playAccum + delta * s.fps * rate
                       - ratTrunc (s.playAccum + delta * s.fps * rate) }
            ((s.current_frame : ℤ) + ratTrunc (s.playAccum + delta * s.fps * rate))).current_frame
            < s.total_frames := by
        exact setCurrentFrame_frame_lt _ (by simpa [framesReady] using hr) hc
      refine ⟨hlt, by rw [setCurrentFrame_total], fun hpos hle => ?_⟩
      exact absurd (And.intro (by omega) hle) hclamp

/-- C2 witness: a playing session at frame 3 of 5 with 5 accumulated frames
and an elapsed tick of 0 clamps to frame 4 and stops. -/
theorem c2_play_tick_witness :
    (playTick playEndState 0 1).current_frame < playEndState.total_frames
    ∧ (playTick playEndState 0 1).current_frame = playEndState.total_frames - 1
    ∧ (playTick playEndState 0 1).playing = false := by
  have hacc : playEndState.playAccum + 0 * playEndState.fps * 1 = ((5 : ℕ) : ℚ) := by
    show (5 : ℚ) + 0 * 10 * 1 = ((5 : ℕ) : ℚ)
    push_cast
    ring
  obtain ⟨h1, _, h3⟩ := c2_play_tick_clamps_and_stops playEndState 0 1
    rfl (by simp [framesReady, playEndState, baseCC])
    (by norm_num [playEndState, baseCC]) (by simp [playEndState, baseCC])
  have h4 := h3 (by rw [hacc, ratTrunc_natCast]; omega)
    (by rw [hacc, ratTrunc_natCast]; norm_num [playEndState, baseCC])
  exact ⟨h1, h4.1, h4.2⟩

lemma maybeStopStepHold_total (s : CC) :
    (maybeStopStepHold s).total_frames = s.total_frames := by
  rw [maybeStopStepHold]
  split_ifs <;> rfl

lemma maybeStopStepHold_fps (s : CC) : (maybeStopStepHold s).fps = s.fps := by
  rw [maybeStopStepHold]
  split_ifs <;> rfl

lemma nudgeFrame_total (s : CC) (d : ℤ) :
    (nudgeFrame s d).total_frames = s.total_frames := by
  rw [nudgeFrame]
  split_ifs <;>
    first
      | rfl
      | rw [maybeStopStepHold_total, setCurrentFrame_total]
      | rw [setCurrentFrame_total]

lemma nudgeFrame_fps (s : CC) (d : ℤ) : (nudgeFrame s d).fps = s.fps := by
  rw [nudgeFrame]
  split_ifs <;>
    first
      | rfl
      | rw [maybeStopStepHold_fps, setCurrentFrame_fps]
      | rw [setCurrentFrame_fps]

lemma stepHoldTick_total (s : CC) (delta : ℚ) :
    (stepHoldTick s delta).total_frames = s.total_frames := by
  rw [stepHoldTick]
  split_ifs <;> first | rfl | exact nudgeFrame_total _ _

lemma stepHoldTick_fps (s : CC) (delta : ℚ) :
    (stepHoldTick s delta).fps = s.fps := by
  rw [stepHoldTick]
  split_ifs <;> first | rfl | exact nudgeFrame_fps _ _

lemma startStepHold_total (s : CC) :
    (startStepHold s).total_frames = s.total_frames := by
  rw [startStepHold]
  split_ifs
  all_goals first
    | rfl
    | (rw [nudgeFrame_total]; exact setPlaying_total s false)

lemma startStepHold_fps (s : CC) : (startStepHold s).fps = s.fps := by
  rw [startStepHold]
  split_ifs
  all_goals first
    | rfl
    | (rw [nudgeFrame_fps]; exact setPlaying_fps s false)

lemma playTick_total (s : CC) (delta rate : ℚ) :
    (playTick s delta rate).total_frames = s.total_frames := by
  rw [playTick]
  split_ifs <;>
    first
      | rfl
      | rw [setPlaying_total, setCurrentFrame_total]
      | rw [setCurrentFrame_total]

lemma playTick_fps (s : CC) (delta rate : ℚ) :
    (playTick s delta rate).fps = s.fps := by
  rw [playTick]
  split_ifs <;>
    first
      | rfl
      | rw [setPlaying_fps, setCurrentFrame_fps]
      | rw [setCurrentFrame_fps]

lemma togglePlay_total (s : CC) : (togglePlay s).total_frames = s.total_frames := by
  rw [togglePlay]
  split_ifs <;> first | rfl | exact setPlaying_total _ _

lemma togglePlay_fps (s : CC) : (togglePlay s).fps = s.fps := by
  rw [togglePlay]
  split_ifs <;> first | rfl | exact setPlaying_fps _ _

lemma cancelFrameGeneration_total (s : CC) :
    (cancelFrameGeneration s).total_frames = s.total_frames := by
  rw [cancelFrameGeneration]
  split_ifs <;> rfl

lemma cancelFrameGeneration_fps (s : CC) :
    (cancelFrameGeneration s).fps = s.fps := by
  rw [cancelFrameGeneration]
  split_ifs <;> rfl

lemma ffmpegFinished_fps (s : CC) (ec : ℤ) (ne : Bool) :
    (ffmpegFinished s ec ne).fps = s.fps := by
  rw [ffmpegFinished]
  split_ifs <;> try rfl
  all_goals rcases h : s.genExpectedTotal with _ | et
  all_goals simp only [h]
  all_goals try split_ifs
  all_goals rfl

/-- C4: whenever the decode process of an active generation job exits
abnormally or with a non-zero code, `_on_ffmpeg_finished` removes the
temporary directory (none remains) and leaves the final cache directory
exactly as it was. -/
theorem c4_generation_failure_cleanup (s : CC) (exit_code : ℤ) (normal_exit : Bool)
    (hg : s.genActive = true) (hf : normal_exit = false ∨ exit_code ≠ 0) :
    (ffmpegFinished s exit_code normal_exit).fsTmp = none
    ∧ (ffmpegFinished s exit_code normal_exit).fsFinal = s.fsFinal := by
  rw [ffmpegFinished, if_neg (by simp [hg]), if_pos hf]
  exact ⟨rfl, rfl⟩

/-- C4 witness: a running job (two frames in its temporary directory) whose
process exits normally with code 1 loses its temporary directory and keeps
the pre-existing final directory untouched. -/
theorem c4_generation_failure_witness :
    (ffmpegFinished genRunningState 1 true).fsTmp = none
    ∧ (ffmpegFinished genRunningState 1 true).fsFinal = genRunningState.fsFinal :=
  c4_generation_failure_cleanup genRunningState 1 true rfl (Or.inr (by decide))

/-- C9 counterexample to the claim as stated: for an item loaded with record
`total_frames = 0` (hence no expected total recorded for the generation job),
a successful frame generation mutates the session's `total_frames` from 0 to
the produced frame count (3) — so `total_frames` is not immutable under frame
generation between item loads. -/
theorem c9_immutability_counterexample :
    genNoTotalState.total_frames = 0
    ∧ (ffmpegFinished genNoTotalState 0 true).total_frames = 3 := by
  constructor
  · rfl
  · decide

/-- C9 (amended): the session fps is unchanged by playback ticks, play
toggling, step ticks, step-hold starts, seeking and generation completion;
`total_frames` is likewise unchanged by all of them, and by generation
completion provided the job's recorded expected total equals the session
total (which holds whenever the loaded record had `total_frames > 0`, since
`_start_frame_generation` records it from the session) or no job is active;
when the loaded record had `total_frames = 0`, a successful generation
overwrites `total_frames` with the produced frame count
(`c9_immutability_counterexample`).  Cache validation
(`_frames_cache_valid`) is a pure predicate and mutates nothing. -/
theorem c9_fps_total_immutable (s : CC)
    (h : s.genActive = false ∨ s.genExpectedTotal = some s.total_frames) :
    (∀ delta rate : ℚ, (playTick s delta rate).fps = s.fps
        ∧ (playTick s delta rate).total_frames = s.total_frames)
    ∧ ((togglePlay s).fps = s.fps ∧ (togglePlay s).total_frames = s.total_frames)
    ∧ (∀ delta : ℚ, (stepHoldTick s delta).fps = s.fps
        ∧ (stepHoldTick s delta).total_frames = s.total_frames)
    ∧ ((startStepHold s).fps = s.fps ∧ (startStepHold s).total_frames = s.total_frames)
    ∧ (∀ f : ℤ, (setCurrentFrame s f).fps = s.fps
        ∧ (setCurrentFrame s f).total_frames = s.total_frames)
    ∧ ((cancelFrameGeneration s).fps = s.fps
        ∧ (cancelFrameGeneration s).total_frames = s.total_frames)
    ∧ (∀ (ec : ℤ) (ne : Bool), (ffmpegFinished s ec ne).fps = s.fps
        ∧ (ffmpegFinished s ec ne).total_frames = s.total_frames) := by
  refine ⟨fun delta rate => ⟨playTick_fps s delta rate, playTick_total s delta rate⟩,
    ⟨togglePlay_fps s, togglePlay_total s⟩,
    fun delta => ⟨stepHoldTick_fps s delta, stepHoldTick_total s delta⟩,
    ⟨startStepHold_fps s, startStepHold_total s⟩,
    fun f => ⟨setCurrentFrame_fps s f, setCurrentFrame_total s f⟩,
    ⟨cancelFrameGeneration_fps s, cancelFrameGeneration_total s⟩,
    fun ec ne => ⟨ffmpegFinished_fps s ec ne, ?_⟩⟩
  rcases h with h | h
  · rw [ffmpegFinished, if_pos (by simp [h])]
  · rw [ffmpegFinished]
    split_ifs <;> try rfl
    all_goals simp only [h]
    all_goals try split_ifs
    all_goals rfl

/-- C9 witness: the amended immutability applied to the idle concrete state
(no job active), specialized to generation completion. -/
theorem c9_fps_total_immutable_witness :
    (ffmpegFinished baseCC 0 true).fps = baseCC.fps
    ∧ (ffmpegFinished baseCC 0 true).total_frames = baseCC.total_frames :=
  (c9_fps_total_immutable baseCC (Or.inl rfl)).2.2.2.2.2.2 0 true

lemma ratTrunc_one : ratTrunc 1 = 1 := by
  simpa using ratTrunc_natCast 1

lemma setCurrentFrame_stepTimerOn (s : CC) (f : ℤ) :
    (setCurrentFrame s f).stepTimerOn = s.stepTimerOn := by
  rw [setCurrentFrame]
  split_ifs <;> rfl

lemma setCurrentFrame_holds (s : CC) (f : ℤ) :
    (setCurrentFrame s f).stepHoldLeft = s.stepHoldLeft
    ∧ (setCurrentFrame s f).stepHoldRight = s.stepHoldRight := by
  rw [setCurrentFrame]
  split_ifs <;> exact ⟨rfl, rfl⟩

lemma stepDirection_setCurrentFrame (s : CC) (f : ℤ) :
    stepDirection (setCurrentFrame s f) = stepDirection s := by
  rw [stepDirection, stepDirection, (setCurrentFrame_holds s f).1,
    (setCurrentFrame_holds s f).2]

/-- C6, behavior of the code at the failing input: at frame 3 of 5 with the
right key held and the step timer running, a step tick advances to the last
frame (4) but leaves the step timer running and the effective direction
nonzero — `_nudge_frame`'s boundary call to `_maybe_stop_step_hold` only
stops the timer when the direction is already 0, which never holds on the
paths that call it, so the loop keeps ticking at the clamp while the key is
held. -/
theorem c6_boundary_does_not_stop_ticking :
    (stepHoldTick stepBoundaryState 0).current_frame = 4
    ∧ (stepHoldTick stepBoundaryState 0).stepTimerOn = true
    ∧ stepDirection (stepHoldTick stepBoundaryState 0) ≠ 0 := by
  have hacc : stepBoundaryState.stepAccum + 0 * stepBoundaryState.fps * 1
      = ((1 : ℕ) : ℚ) := by
    show (1 : ℚ) + 0 * 10 * 1 = ((1 : ℕ) : ℚ)
    push_cast
    ring
  have hguard : ¬ (¬ framesReady stepBoundaryState ∨ stepBoundaryState.fps ≤ 0
      ∨ stepBoundaryState.sliderDragging = true) := by
    push_neg
    refine ⟨by simp [framesReady, stepBoundaryState, baseCC],
      by norm_num [stepBoundaryState, baseCC], by simp [stepBoundaryState, baseCC]⟩
  have hdir : stepDirection stepBoundaryState = 1 := by decide
  rw [stepHoldTick, if_neg hguard, if_neg (by rw [hdir]; omega), hacc,
    ratTrunc_natCast, if_neg (by omega), hdir]
  set s1 : CC :=
    { stepBoundaryState with
        stepAccum := ((1 : ℕ) : ℚ) - ((1 : ℕ) : ℤ) } with hs1
  have hr1 : framesReady s1 = true := by
    simp [framesReady, hs1, stepBoundaryState, baseCC]
  have htgt : nudgeTarget s1 (1 * ((1 : ℕ) : ℤ)) = 4 := by
    rw [nudgeTarget]
    simp [hs1, stepBoundaryState, baseCC]
  rw [nudgeFrame, if_neg (by push_neg; exact ⟨hr1, by simp [hs1, stepBoundaryState, baseCC]⟩),
    htgt, if_pos (by simp [hs1, stepBoundaryState, baseCC]),
    maybeStopStepHold, if_neg (by rw [stepDirection_setCurrentFrame, hs1]; decide)]
  refine ⟨?_, ?_, ?_⟩
  · have := setCurrentFrame_last (s := s1) hr1
    simpa [hs1, stepBoundaryState, baseCC] using this
  · rw [setCurrentFrame_stepTimerOn, hs1]
    rfl
  · rw [stepDirection_setCurrentFrame, hs1]
    decide

/-- C7 counterexample to the claim as stated: with the right key held mid
step-hold, press the left key (now both held), let one step tick fire (it
observes direction 0 and stops the step timer), then release the left key.
The release leaves the timer stopped — `_maybe_stop_step_hold` never
restarts it — so movement does not resume in the remaining direction even
though the right key is still held and frames are ready; the frame also never
moved while both were held. -/
theorem c7_release_does_not_resume :
    (releaseLeft (stepHoldTick (pressLeft bothHeldStart) (1 / 100))).stepTimerOn = false
    ∧ (releaseLeft (stepHoldTick (pressLeft bothHeldStart) (1 / 100))).stepHoldRight = true
    ∧ framesReady (releaseLeft (stepHoldTick (pressLeft bothHeldStart) (1 / 100))) = true
    ∧ (releaseLeft (stepHoldTick (pressLeft bothHeldStart) (1 / 100))).current_frame
        = bothHeldStart.current_frame := by
  decide

/-- C7 (amended): while both direction keys are held the effective direction
is 0 and a step tick moves nothing (it also stops the ticking loop); if one
key is released while the ticking loop is still running (i.e. before any tick
observed the both-held state), the loop and its accumulator are left exactly
as they are and the effective direction becomes the remaining key's, so
movement resumes with no restart delay; but once a tick has fired during the
both-held state the loop is stopped and a release does not restart it
(`c7_release_does_not_resume`). -/
theorem c7_both_held_cancels (s : CC) (delta : ℚ)
    (hl : s.stepHoldLeft = true) (hr : s.stepHoldRight = true) :
    stepDirection s = 0
    ∧ (stepHoldTick s delta).current_frame = s.current_frame
    ∧ (stepHoldTick s delta).stepTimerOn = false
    ∧ (s.stepTimerOn = true →
        (releaseLeft s).stepTimerOn = true
        ∧ (releaseLeft s).stepAccum = s.stepAccum
        ∧ stepDirection (releaseLeft s) = 1
        ∧ (releaseRight s).stepTimerOn = true
        ∧ (releaseRight s).stepAccum = s.stepAccum
        ∧ stepDirection (releaseRight s) = -1) := by
  have hdir : stepDirection s = 0 := by simp [stepDirection, hl, hr]
  have hdL : stepDirection { s with stepHoldLeft := false } = 1 := by
    simp [stepDirection, hr]
  have hdR : stepDirection { s with stepHoldRight := false } = -1 := by
    simp [stepDirection, hl]
  refine ⟨hdir, ?_, ?_, fun ht => ?_⟩
  · rw [stepHoldTick]
    split_ifs <;> rfl
  · rw [stepHoldTick]
    split_ifs <;> rfl
  · rw [releaseLeft, releaseRight, maybeStopStepHold, maybeStopStepHold,
      if_neg (by rw [hdL]; omega), if_neg (by rw [hdR]; omega)]
    exact ⟨ht, rfl, hdL, ht, rfl, hdR⟩

/-- C7 witness: the amended statement at the concrete both-held running
state. -/
theorem c7_both_held_cancels_witness :
    stepDirection bothHeldState = 0
    ∧ (stepHoldTick bothHeldState 0).current_frame = bothHeldState.current_frame
    ∧ (stepHoldTick bothHeldState 0).stepTimerOn = false
    ∧ ((releaseLeft bothHeldState).stepTimerOn = true
        ∧ (releaseLeft bothHeldState).stepAccum = bothHeldState.stepAccum
        ∧ stepDirection (releaseLeft bothHeldState) = 1
        ∧ (releaseRight bothHeldState).stepTimerOn = true
        ∧ (releaseRight bothHeldState).stepAccum = bothHeldState.stepAccum
        ∧ stepDirection (releaseRight bothHeldState) = -1) := by
  obtain ⟨h1, h2, h3, h4⟩ := c7_both_held_cancels bothHeldState 0 rfl rfl
  exact ⟨h1, h2, h3, h4 rfl⟩

lemma evictOverflow_eq_drop (c : List ℕ) :
    evictOverflow c = c.drop (c.length - PIXMAP_CACHE_SIZE) := by
  induction c with
  | nil => rfl
  | cons a t ih =>
    rw [evictOverflow]
    split_ifs with h
    · rw [Nat.sub_eq_zero_of_le h, List.drop_zero]
    · rw [ih]
      have h1 : (a :: t).length - PIXMAP_CACHE_SIZE
          = (t.length - PIXMAP_CACHE_SIZE) + 1 := by
        simp only [List.length_cons, PIXMAP_CACHE_SIZE] at h ⊢
        omega
      rw [h1, List.drop_succ_cons]

lemma displayFrameCache_insert_full (c : List ℕ) (f : ℕ) (hf : f ∉ c)
    (hlen : c.length = 128) :
    displayFrameCache c f true = c.drop 1 ++ [f] := by
  rw [displayFrameCache, if_neg hf, if_neg (by simp), evictOverflow_eq_drop]
  have h1 : (c ++ [f]).length - PIXMAP_CACHE_SIZE = 1 := by
    simp [hlen, PIXMAP_CACHE_SIZE]
  rw [h1, List.drop_append_eq_append_drop]
  have h2 : 1 - c.length = 0 := by omega
  rw [h2, List.drop_zero]

lemma foldl_displayFrameCache_fresh (L : List ℕ) :
    ∀ c : List ℕ, c.length = 128 → L.Nodup → (∀ x ∈ L, x ∉ c) → L.length ≤ 128 →
      L.foldl (fun acc n => displayFrameCache acc n true) c = c.drop L.length ++ L := by
  induction L with
  | nil => intro c _ _ _ _; simp
  | cons f t ih =>
    intro c hlen hnd hdisj hle
    rw [List.foldl_cons]
    have hf : f ∉ c := hdisj f (by simp)
    rw [displayFrameCache_insert_full c f hf hlen]
    have hlen' : (c.drop 1 ++ [f]).length = 128 := by
      simp [List.length_drop, hlen]
    have hnd' : t.Nodup := (List.nodup_cons.mp hnd).2
    have hft : f ∉ t := (List.nodup_cons.mp hnd).1
    have hdisj' : ∀ x ∈ t, x ∉ c.drop 1 ++ [f] := by
      intro x hx
      simp only [List.mem_append, List.mem_singleton]
      push_neg
      refine ⟨fun hc => hdisj x (by simp [hx]) (List.mem_of_mem_drop hc),
        fun he => hft (he ▸ hx)⟩
    have hle' : t.length ≤ 128 := by
      simp only [List.length_cons] at hle
      omega
    rw [ih _ hlen' hnd' hdisj' hle']
    rw [List.drop_append_eq_append_drop, List.drop_drop]
    have h0 : t.length - (c.drop 1).length = 0 := by
      simp only [List.length_drop, hlen]
      simp only [List.length_cons] at hle
      omega
    rw [h0, List.drop_zero]
    simp only [List.length_cons, List.append_assoc, List.singleton_append]
    rw [Nat.add_comm 1 t.length]

/-- C5: the in-memory pixmap cache (key order, least-recently-used first)
(i) never exceeds 128 entries after a `_display_frame` when it did not
before; (ii) a hit promotes the hit frame to the most-recently-used end;
(iii) inserting a fresh frame into a full cache of 128 evicts exactly the
least-recently-used entry (the head); and (iv) after touching frame `A` in a
full cache and then inserting 127 fresh distinct frames, `A` survives, every
other originally cached frame is evicted, and the cache again holds exactly
128 entries. -/
theorem c5_lru_cache (c : List ℕ) (f A : ℕ) (ok : Bool) (L : List ℕ) :
    (c.length ≤ 128 → (displayFrameCache c f ok).length ≤ 128)
    ∧ (f ∈ c → displayFrameCache c f ok = c.erase f ++ [f])
    ∧ (c.length = 128 → f ∉ c → displayFrameCache c f true = c.drop 1 ++ [f])
    ∧ (c.length = 128 → c.Nodup → A ∈ c → L.length = 127 → L.Nodup →
        (∀ x ∈ L, x ∉ c) →
        A ∈ L.foldl (fun acc n => displayFrameCache acc n true)
              (displayFrameCache c A true)
        ∧ (∀ x ∈ c, x ≠ A →
            x ∉ L.foldl (fun acc n => displayFrameCache acc n true)
                  (displayFrameCache c A true))
        ∧ (L.foldl (fun acc n => displayFrameCache acc n true)
              (displayFrameCache c A true)).length = 128) := by
  refine ⟨?_, ?_, fun hlen hf => displayFrameCache_insert_full c f hf hlen, ?_⟩
  · intro hle
    rw [displayFrameCache]
    split_ifs with h1 h2
    · rw [List.length_append, List.length_erase_of_mem h1]
      simp only [List.length_singleton]
      omega
    · rw [evictOverflow_eq_drop, List.length_drop]
      simp only [PIXMAP_CACHE_SIZE, List.length_append, List.length_singleton]
      omega
    · exact hle
  · intro hf
    rw [displayFrameCache, if_pos hf]
  · intro hlen hnd hA hLlen hLnd hdisj
    have htouch : displayFrameCache c A true = c.erase A ++ [A] := by
      rw [displayFrameCache, if_pos hA]
    have herase_len : (c.erase A).length = 127 := by
      rw [List.length_erase_of_mem hA, hlen]
    have hlen' : (c.erase A ++ [A]).length = 128 := by
      simp [herase_len]
    have hdisj' : ∀ x ∈ L, x ∉ c.erase A ++ [A] := by
      intro x hx
      simp only [List.mem_append, List.mem_singleton]
      push_neg
      refine ⟨fun hc => hdisj x hx (List.mem_of_mem_erase hc), fun he => ?_⟩
      exact hdisj x hx (he ▸ hA)
    have hfold := foldl_displayFrameCache_fresh L (c.erase A ++ [A]) hlen' hLnd
      hdisj' (by omega)
    have hdrop : (c.erase A ++ [A]).drop L.length = [A] := by
      rw [hLlen, List.drop_append_eq_append_drop]
      have h1 : (c.erase A).drop 127 = [] := by
        rw [← herase_len, List.drop_length]
      have h2 : 127 - (c.erase A).length = 0 := by omega
      rw [h1, h2, List.drop_zero, List.nil_append]
    rw [htouch, hfold, hdrop]
    refine ⟨by simp, ?_, by simp [hLlen]⟩
    intro x hx hne
    simp only [List.singleton_append, List.mem_cons]
    push_neg
    exact ⟨hne, fun hxL => absurd hx (by intro hc; exact hdisj x hxL hc)⟩

/-- C5 witness: with the full cache `[0, …, 127]` (0 least recently used):
any insert keeps the size at most 128; a hit on 5 promotes it to the
most-recently-used end; inserting the fresh frame 200 evicts exactly the
head; and after touching frame 0 and inserting the 127 fresh frames
128…254, frame 0 is still cached. -/
theorem c5_lru_cache_witness :
    (displayFrameCache (List.range 128) 200 true).length ≤ 128
    ∧ displayFrameCache (List.range 128) 5 true = (List.range 128).erase 5 ++ [5]
    ∧ displayFrameCache (List.range 128) 200 true = (List.range 128).drop 1 ++ [200]
    ∧ 0 ∈ (List.range' 128 127).foldl (fun acc n => displayFrameCache acc n true)
          (displayFrameCache (List.range 128) 0 true) := by
  have hdisj : ∀ x ∈ List.range' 128 127, x ∉ List.range 128 := by
    intro x hx
    rw [List.mem_range'_1] at hx
    rw [List.mem_range]
    omega
  refine ⟨?_, ?_, ?_, ?_⟩
  · exact (c5_lru_cache (List.range 128) 200 0 true (List.range' 128 127)).1
      (by simp)
  · exact (c5_lru_cache (List.range 128) 5 0 true (List.range' 128 127)).2.1
      (by rw [List.mem_range]; omega)
  · exact (c5_lru_cache (List.range 128) 200 0 true (List.range' 128 127)).2.2.1
      (by simp) (by rw [List.mem_range]; omega)
  · exact ((c5_lru_cache (List.range 128) 200 0 true (List.range' 128 127)).2.2.2
      (by simp) (List.nodup_range 128) (by rw [List.mem_range]; omega)
      (by simp) (List.nodup_range' 128 127) hdisj).1

/-- C8 counterexample to the claim as stated: if the decode process reports
the regressive sequence 5 then 3 (with expected total 10), the surfaced
progress values are exactly 5 then 3 — the regression is surfaced (only
clipped against the total), not ignored, so the surfaced sequence is not
monotonically non-decreasing. -/
theorem c8_progress_counterexample :
    surfacedProgress (some 10) [5, 3] = [5, 3]
    ∧ ¬ List.Chain' (· ≤ ·) (surfacedProgress (some 10) [5, 3]) := by
  constructor
  · norm_num [surfacedProgress, updateGenerationProgress]
  · norm_num [surfacedProgress, updateGenerationProgress, List.chain'_cons]

/-- C8 (amended): for every monotonically non-decreasing sequence of reported
`frame=` counts — the delivery order/monotonicity the external process is
documented to provide — the surfaced progress sequence is monotonically
non-decreasing and, when the expected total is known, bounded by it (each
report is clipped to the total); a regressive report, however, is surfaced
after clipping rather than ignored (`c8_progress_counterexample`). -/
theorem c8_progress_monotone (t : ℕ) (reports : List ℕ)
    (h : List.Chain' (· ≤ ·) reports) :
    List.Chain' (· ≤ ·) (surfacedProgress (some t) reports)
    ∧ (∀ x ∈ surfacedProgress (some t) reports, x ≤ t)
    ∧ List.Chain' (· ≤ ·) (surfacedProgress none reports) := by
  refine ⟨?_, ?_, ?_⟩
  · rw [surfacedProgress, List.chain'_map]
    refine h.imp fun a b hab => ?_
    simp only [updateGenerationProgress]
    exact min_le_min hab le_rfl
  · intro x hx
    rw [surfacedProgress, List.mem_map] at hx
    obtain ⟨a, _, rfl⟩ := hx
    simp only [updateGenerationProgress]
    exact min_le_right a t
  · rw [surfacedProgress]
    have hid : updateGenerationProgress none = id := by
      funext x
      rfl
    rw [hid, List.map_id]
    exact h

/-- C8 witness: the non-decreasing report sequence 1, 2, 5 with expected
total 3 surfaces as a non-decreasing sequence bounded by 3. -/
theorem c8_progress_monotone_witness :
    List.Chain' (· ≤ ·) (surfacedProgress (some 3) [1, 2, 5])
    ∧ (∀ x ∈ surfacedProgress (some 3) [1, 2, 5], x ≤ 3)
    ∧ List.Chain' (· ≤ ·) (surfacedProgress none [1, 2, 5]) :=
  c8_progress_monotone 3 [1, 2, 5] (by simp [List.chain'_cons])

/-- C10: selecting the item that is already current is a complete no-op —
`_load_item` returns before stopping playback, clearing the step-hold flags
or timers, cancelling generation, clearing the in-memory cache, re-reading
the record or re-ranging the slider, so the entire session state is returned
unchanged. -/
theorem c10_reselect_is_noop (s : CC) (d : ℕ) (rec : RecordInfo)
    (h : s.currentItem = some d) : loadItem s d rec = s := by
  rw [loadItem, if_pos h]

/-- C10 witness: reselecting the current item of the concrete session (with
whatever record contents a re-read would produce) changes nothing. -/
theorem c10_reselect_is_noop_witness :
    loadItem baseCC 0 { fps := some 10, total := some 5, reviewed := false } = baseCC :=
  c10_reselect_is_noop baseCC 0 _ rfl

end CaptionCheck
